import Mathlib

/-
Verification development for the capsule loading module
(vcap/vcap/loading/capsule_loading.py) of the open_vision_capsules
repository.

The Python module is shallowly embedded below.  Byte strings are
modelled as lists of naturals, zip archives as association lists from
entry name to byte content, and Python exceptions as an explicit error
type threaded through an Except monad.  External collaborators of the
module (the configparser library, the dynamic execution of the capsule
code, the sha256-derived module name) are passed in as explicit
function parameters, so that every theorem quantifies over their
behaviour.  Error message strings follow the source messages, with
punctuation slightly simplified; no theorem depends on the exact
wording beyond internal consistency of the model.
-/

namespace VCap

/-- Raw byte content of a file, one natural per byte. -/
abbrev Bytes := List Nat

/-- Python exceptions that the loading module can produce or leak.
The two library error types InvalidCapsuleError and
IncompatibleCapsuleError carry the capsule name and a reason, exactly
as in vcap/loading/errors.py; the remaining constructors model raw
builtin exceptions. -/
inductive PyExc where
  | invalidCapsule (capsuleName reason : String)
  | incompatibleCapsule (capsuleName reason : String)
  | keyError (key : String)
  | typeError (msg : String)
  | attributeError (attr : String)
  | indexError (msg : String)
  | parsingError (msg : String)
deriving DecidableEq, Repr

/-- True exactly for the two error kinds the module is documented to
report: InvalidCapsuleError and IncompatibleCapsuleError. -/
def isWrappedCapsuleError : PyExc → Bool
  | .invalidCapsule _ _ => true
  | .incompatibleCapsule _ _ => true
  | _ => false

/-- Rendering of an exception as it would appear interpolated into a
Python f-string; approximate, used only inside message strings. -/
def PyExc.render : PyExc → String
  | .invalidCapsule n r => "InvalidCapsuleError: " ++ n ++ ": " ++ r
  | .incompatibleCapsule n r => "IncompatibleCapsuleError: " ++ n ++ ": " ++ r
  | .keyError k => "KeyError: " ++ k
  | .typeError m => "TypeError: " ++ m
  | .attributeError a => "AttributeError: " ++ a
  | .indexError m => "IndexError: " ++ m
  | .parsingError m => m

/-- MAJOR_COMPATIBLE_VERSION from capsule_loading.py line 18. -/
def MAJOR_COMPATIBLE_VERSION : Nat := 0

/-- MINOR_COMPATIBLE_VERSION from capsule_loading.py line 19. -/
def MINOR_COMPATIBLE_VERSION : Nat := 2

/-- Modelled from the spec and from the source comments on lines 64-66
and 72 of capsule_loading.py: CAPSULE_FILE_NAME is imported from
vcap.loading.packaging, which is not part of src/; the comments name
the designated code entry capsule.py. -/
def CAPSULE_FILE_NAME : String := "capsule.py"

/-- Modelled from the spec and from the source comment on line 72 of
capsule_loading.py: META_FILE_NAME is imported from
vcap.loading.packaging, which is not part of src/; the comment names
the designated meta entry meta.conf. -/
def META_FILE_NAME : String := "meta.conf"

/-- ASCII decimal digit test, the character class [0-9] of the
MAJOR_MINOR_SEMVER_PATTERN regular expression. -/
def isAsciiDigit (c : Char) : Bool := ('0' ≤ c) && (c ≤ '9')

/-- Value of a string of ASCII digits, as computed by the Python int
builtin on the regex groups. -/
def digitsToNat (l : List Char) : Nat :=
  l.foldl (fun acc c => 10 * acc + (c.toNat - 48)) 0

/-- Full match of the regular expression ([0-9]+)\.([0-9]+) from line
22 of capsule_loading.py, returning the two groups converted by int.
A full match forces the first group to be the maximal leading digit
run, then a dot, then a nonempty all-digit remainder. -/
def semverMatch (s : String) : Option (Nat × Nat) :=
  let l := s.toList
  let g1 := l.takeWhile isAsciiDigit
  let rest := l.dropWhile isAsciiDigit
  match g1, rest with
  | [], _ => none
  | _, [] => none
  | _, c :: g2 =>
    if c = '.' && !g2.isEmpty && g2.all isAsciiDigit then
      some (digitsToNat g1, digitsToNat g2)
    else
      none

/-- Python dict lookup on an association list whose keys are unique
(the dicts built by this module are only ever grown by dictInsert). -/
def dictGet (d : List (String × Bytes)) (k : String) : Option Bytes :=
  (d.find? (fun p => p.1 == k)).map (fun p => p.2)

/-- Python dict item assignment: replace in place when the key is
present, append otherwise (insertion order preserved). -/
def dictInsert (d : List (String × Bytes)) (k : String) (v : Bytes) :
    List (String × Bytes) :=
  if d.any (fun p => p.1 == k) then
    d.map (fun p => if p.1 == k then (k, v) else p)
  else
    d ++ [(k, v)]

/-- The namelist of a zip archive modelled as an association list from
entry name to content. -/
def namelist (arch : List (String × Bytes)) : List String :=
  arch.map Prod.fst

/-- One iteration of the extraction loop, lines 63-70: the capsule.py
entry becomes the code, every other entry is stored into the
loaded_files dict. -/
def extractStep (acc : Option Bytes × List (String × Bytes))
    (p : String × Bytes) : Option Bytes × List (String × Bytes) :=
  if p.1 == CAPSULE_FILE_NAME then (some p.2, acc.2)
  else (acc.1, dictInsert acc.2 p.1 p.2)

/-- The extraction loop of load_capsule_from_bytes lines 53 and 63-70:
code starts as None and is set from the capsule.py entry; every other
entry is stored into the loaded_files dict.  For an archive with
duplicate entry names the final state agrees with ZipFile.read, which
resolves a name to the content of its last entry. -/
def extractFiles (arch : List (String × Bytes)) :
    Option Bytes × List (String × Bytes) :=
  arch.foldl extractStep (none, [])

/-- A Python class object, as needed by the stream_state check: its
name and its tuple of direct base classes.  Python identity of class
objects is modelled by structural equality (classEq). -/
inductive PyClassObj : Type where
  | mk : String → List PyClassObj → PyClassObj

/-- The name of a class object. -/
def PyClassObj.clsName : PyClassObj → String
  | .mk n _ => n

/-- The direct bases of a class object, Python attribute __bases__. -/
def PyClassObj.basesOf : PyClassObj → List PyClassObj
  | .mk _ b => b

mutual

/-- Equality of class objects, modelling the Python is and in
(identity) tests applied to classes by _validate_capsule. -/
def classEq : PyClassObj → PyClassObj → Bool
  | .mk n bs, .mk m cs => n == m && classListEq bs cs

/-- Pointwise equality of lists of class objects. -/
def classListEq : List PyClassObj → List PyClassObj → Bool
  | [], [] => true
  | _ :: _, [] => false
  | [], _ :: _ => false
  | a :: as, b :: bs => classEq a b && classListEq as bs

end

/-- The BaseStreamState class of the vcap package. -/
def BaseStreamState : PyClassObj := .mk "BaseStreamState" []

mutual

/-- Direct or indirect subtype test against BaseStreamState
(reflexive-transitive closure of the direct-base relation), used to
state the spec claim about the stream_state check. -/
def isStreamStateSubtype : PyClassObj → Bool
  | .mk n bs =>
    classEq (PyClassObj.mk n bs) BaseStreamState || anyStreamStateSubtype bs

/-- Some member of the list is a direct or indirect subtype of
BaseStreamState. -/
def anyStreamStateSubtype : List PyClassObj → Bool
  | [] => false
  | b :: bs => isStreamStateSubtype b || anyStreamStateSubtype bs

end

/-- The stream_state assertion of _validate_capsule lines 260-262:
stream_state is BaseStreamState, or BaseStreamState is a member of
stream_state.__bases__ (the direct bases only). -/
def streamStateOk (ss : PyClassObj) : Bool :=
  classEq ss BaseStreamState ||
    ss.basesOf.any (fun b => classEq b BaseStreamState)

/-- The code object of a Python function: its local variable names and
the count of its declared arguments, the two fields check_arg_names
reads. -/
structure PyCode where
  co_varnames : List String
  co_argcount : Nat
deriving DecidableEq, Repr

/-- The observable surface of a backend instance: whether its three
required operations are callable and whether it is an instance of
BaseBackend. -/
structure PyBackend where
  batch_predict_callable : Bool
  process_frame_callable : Bool
  close_callable : Bool
  is_base_backend : Bool
deriving DecidableEq, Repr

/-- The observable surface of a capsule instance, covering exactly the
attributes _validate_capsule inspects.  attrs_missing lists the
attribute names whose access raises AttributeError; boolean fields
record the outcome of the isinstance and callable tests the validator
performs; backend_loader_code is none when the loader has no __code__
attribute; has_backend_config records whether the retired
backend_config attribute is present. -/
structure PyCapsule where
  attrs_missing : List String
  name : String
  name_is_str : Bool
  backend_loader_callable : Bool
  backend_loader_code : Option PyCode
  version_is_int : Bool
  input_type_is_node_description : Bool
  output_type_is_node_description : Bool
  options_is_dict : Bool
  options_keys : List String
  has_backend_config : Bool
  backends : Option (List PyBackend)
  stream_state : PyClassObj
  capability_encoded : Bool

/-- Attribute access on a capsule: AttributeError when the attribute
is among the missing ones, the supplied value otherwise. -/
def getAttr {α : Type} (c : PyCapsule) (attr : String) (v : α) :
    Except PyExc α :=
  if c.attrs_missing.contains attr then
    .error (.attributeError attr)
  else
    .ok v

/-- The ASCII word-character class used on line 197: [a-zA-Z0-9_]. -/
def isWordChar (c : Char) : Bool :=
  (('a' ≤ c) && (c ≤ 'z')) || (('A' ≤ c) && (c ≤ 'Z')) ||
    isAsciiDigit c || (c == '_')

/-- Full match of regex \w+ with the ASCII flag against the capsule
name, line 197. -/
def validName (s : String) : Bool :=
  !s.toList.isEmpty && s.toList.all isWordChar

/-- Python repr of a list of booleans, as interpolated into the
assertion-failure messages. -/
def renderBools (l : List Bool) : String :=
  "[" ++ String.intercalate ", " (l.map (fun b => if b then "True" else "False")) ++ "]"

/-- check_arg_names from lines 172-191: the declared argument names
are the first co_argcount entries of co_varnames; names in the ignore
list are filtered out and the remainder must equal the correct list.
The validator calls it with ignore left at its default (empty). -/
def check_arg_names (code : PyCode) (correct : List String)
    (ignore : List String) : Bool :=
  let arg_names := code.co_varnames.take code.co_argcount
  let filtered := arg_names.filter (fun n => !ignore.contains n)
  filtered == correct

/-- Lines 197-201: the capsule name must fully match the ASCII \w+
pattern.  A non-string name makes re.fullmatch raise TypeError, which
the outer handler of _validate_capsule later converts. -/
def checkName (c : PyCapsule) : Except PyExc Unit :=
  match getAttr c "name" c.name with
  | .error e => .error e
  | .ok nm =>
    if !c.name_is_str then
      .error (.typeError "expected string or bytes-like object")
    else if !validName nm then
      .error (.invalidCapsule nm
        "Capsule names must only contain alphanumeric characters and underscores")
    else
      .ok ()

/-- Lines 203-216: the six capsule assertions, evaluated after
accessing each inspected attribute in source order. -/
def checkCapsuleAssertions (c : PyCapsule) : Except PyExc Unit :=
  match getAttr c "name" c.name with
  | .error e => .error e
  | .ok nm =>
  match getAttr c "backend_loader" () with
  | .error e => .error e
  | .ok _ =>
  match getAttr c "version" () with
  | .error e => .error e
  | .ok _ =>
  match getAttr c "input_type" () with
  | .error e => .error e
  | .ok _ =>
  match getAttr c "output_type" () with
  | .error e => .error e
  | .ok _ =>
  match getAttr c "options" () with
  | .error e => .error e
  | .ok _ =>
    let capsule_assertions :=
      [c.name_is_str, c.backend_loader_callable, c.version_is_int,
       c.input_type_is_node_description, c.output_type_is_node_description,
       c.options_is_dict]
    if capsule_assertions.all (fun b => b) then
      .ok ()
    else
      .error (.invalidCapsule nm
        ("The capsule has an invalid internal configuration! Capsule Assertions: "
          ++ renderBools capsule_assertions))

/-- Lines 218-231: probing for the retired backend_config attribute;
its presence is a violation, its absence raises AttributeError which
the inner handler swallows. -/
def checkUnwantedAttributes (c : PyCapsule) : Except PyExc Unit :=
  if c.has_backend_config then
    match getAttr c "name" c.name with
    | .error e => .error e
    | .ok nm =>
      .error (.invalidCapsule nm
        "The capsule has leftover attributes from a previous OpenVisionCapsules API version. Attribute name: backend_config")
  else
    .ok ()

/-- Lines 233-242: the loader must be callable and check_arg_names
with correct = [capsule_files, device] and the default empty ignore
list must succeed.  Reading __code__ of a loader that has none raises
AttributeError. -/
def checkLoader (c : PyCapsule) : Except PyExc Unit :=
  match getAttr c "backend_loader" c.backend_loader_callable with
  | .error e => .error e
  | .ok isCallable =>
  match (match c.backend_loader_code with
         | none => Except.error (PyExc.attributeError "__code__")
         | some pc => Except.ok pc) with
  | .error e => .error e
  | .ok pc =>
    let loader_assertions :=
      [isCallable, check_arg_names pc ["capsule_files", "device"] []]
    if loader_assertions.all (fun b => b) then
      .ok ()
    else
      match getAttr c "name" c.name with
      | .error e => .error e
      | .ok nm =>
        .error (.invalidCapsule nm
          ("The capsule has an invalid backend_loader configuration! Loader Assertions: "
            ++ renderBools loader_assertions))

/-- Lines 244-256: when backends is not None its first element is
indexed (IndexError on an empty list) and must satisfy the four
backend assertions. -/
def checkBackends (c : PyCapsule) : Except PyExc Unit :=
  match getAttr c "backends" c.backends with
  | .error e => .error e
  | .ok none => .ok ()
  | .ok (some bl) =>
    match bl.get? 0 with
    | none => .error (.indexError "list index out of range")
    | some b =>
      let backend_assertions :=
        [b.batch_predict_callable, b.process_frame_callable,
         b.close_callable, b.is_base_backend]
      if backend_assertions.all (fun x => x) then
        .ok ()
      else
        match getAttr c "name" c.name with
        | .error e => .error e
        | .ok nm =>
          .error (.invalidCapsule nm
            ("The capsule has an invalid backend configuration! Backend Assertions: "
              ++ renderBools backend_assertions))

/-- Lines 258-267: the stream_state assertion. -/
def checkStreamState (c : PyCapsule) : Except PyExc Unit :=
  match getAttr c "stream_state" c.stream_state with
  | .error e => .error e
  | .ok ss =>
    if streamStateOk ss then
      .ok ()
    else
      match getAttr c "name" c.name with
      | .error e => .error e
      | .ok nm =>
        .error (.invalidCapsule nm
          ("The capsule has an invalid stream_state configuration! Stream State Assertions: "
            ++ renderBools [streamStateOk ss]))

/-- Lines 269-275: an encoder-capable capsule must have a
recognition_threshold option. -/
def checkEncoder (c : PyCapsule) : Except PyExc Unit :=
  match getAttr c "capability" c.capability_encoded with
  | .error e => .error e
  | .ok encoded =>
    if encoded then
      match getAttr c "options" c.options_keys with
      | .error e => .error e
      | .ok keys =>
        if keys.contains "recognition_threshold" then
          .ok ()
        else
          match getAttr c "name" c.name with
          | .error e => .error e
          | .ok nm =>
            .error (.invalidCapsule nm
              "This capsule can encode, but does not have a option called recognition_threshold!")
    else
      .ok ()

/-- The body of the outer try of _validate_capsule, lines 193-275: the
checks in source order, stopping at the first failure. -/
def validateBody (c : PyCapsule) : Except PyExc Unit :=
  match checkName c with
  | .error e => .error e
  | .ok _ =>
  match checkCapsuleAssertions c with
  | .error e => .error e
  | .ok _ =>
  match checkUnwantedAttributes c with
  | .error e => .error e
  | .ok _ =>
  match checkLoader c with
  | .error e => .error e
  | .ok _ =>
  match checkBackends c with
  | .error e => .error e
  | .ok _ =>
  match checkStreamState c with
  | .error e => .error e
  | .ok _ => checkEncoder c

/-- _validate_capsule, lines 165-285: InvalidCapsuleError passes
through; AttributeError and any other exception are re-reported as
InvalidCapsuleError.  Both handlers read capsule.name to build the
replacement error, so a capsule whose name attribute is itself missing
makes the handler raise a raw AttributeError. -/
def validateCapsule (c : PyCapsule) : Except PyExc Unit :=
  match validateBody c with
  | .ok _ => .ok ()
  | .error (.invalidCapsule n r) => .error (.invalidCapsule n r)
  | .error (.attributeError a) =>
    match getAttr c "name" c.name with
    | .error e => .error e
    | .ok nm =>
      .error (.invalidCapsule nm
        ("The capsule did not describe the necessary attributes. Error: "
          ++ PyExc.render (.attributeError a)))
  | .error e =>
    match getAttr c "name" c.name with
    | .error e2 => .error e2
    | .ok nm =>
      .error (.invalidCapsule nm
        ("This capsule is invalid for unknown reasons. Error: "
          ++ PyExc.render e))

/-- Whether validation accepts the capsule. -/
def validationPasses (c : PyCapsule) : Bool :=
  match validateCapsule c with
  | .ok _ => true
  | .error _ => false

/-- An entry of sys.meta_path: either the ZipFinder pushed by the
loader (carrying the capsule module name; the zip handle and source
path it also receives play no further role in the model) or one of the
host interpreter finders. -/
inductive Finder where
  | zipFinder (capsuleName : String)
  | hostFinder (idx : Nat)
deriving DecidableEq, Repr

/-- Python list.insert: the index is clamped to the list length. -/
def pyInsert {α : Type} (i : Nat) (x : α) (l : List α) : List α :=
  l.take i ++ x :: l.drop i

/-- Python list.pop at an index: none models the IndexError raised
when the index is out of range (the list is then left unchanged). -/
def pyPop {α : Type} (i : Nat) (l : List α) : Option (α × List α) :=
  match l.get? i with
  | none => none
  | some x => some (x, l.take i ++ l.drop (i + 1))

/-- The section structure configparser produces from the meta
descriptor: section name to key-value entries. -/
abbrev IniConf := List (String × List (String × String))

/-- Subscripting the parser with a section name, line 76; KeyError
when absent is raised by the caller of this lookup. -/
def iniSection (conf : IniConf) (sectionName : String) :
    Option (List (String × String)) :=
  (conf.find? (fun p => p.1 == sectionName)).map (fun p => p.2)

/-- Subscripting a section with a key name, line 76. -/
def iniValue (entries : List (String × String)) (k : String) :
    Option String :=
  (entries.find? (fun p => p.1 == k)).map (fun p => p.2)

/-- The Capsule class bound by executing capsule.py: a constructor
taking the capsule_files mapping and the inference_mode flag, lines
129-131.  The call happens outside every try block, so like any
Python call it may raise, and what it raises escapes load raw. -/
abbrev CapsuleCtor := List (String × Bytes) → Bool → Except PyExc PyCapsule

/-- The module object produced by executing capsule.py: the Capsule
attribute looked up on line 129 is either unbound, in which case the
lookup itself raises AttributeError outside every try block, or bound
to the Capsule class. -/
structure PyModule where
  CapsuleClass : Option CapsuleCtor

/-- The observable outcome of a load call: its return value or raised
exception, the final state of sys.meta_path, and whether close was
invoked on the freshly built capsule after a validation failure. -/
structure LoadOutcome where
  result : Except PyExc PyCapsule
  metaPathAfter : List Finder
  capsuleClosed : Bool

/-- Lines 108-139 of load_capsule_from_bytes: a ZipFinder is inserted
at position 1 of sys.meta_path; the capsule code is executed (its
failure is wrapped as InvalidCapsuleError); the finally block pops
position 1 unconditionally, and an IndexError from the pop itself
supersedes the pending result; then, outside every try block, the
Capsule attribute of the module is looked up (raw AttributeError when
the executed code bound no such class) and called (whatever the
constructor raises escapes raw); a validation failure of kind
InvalidCapsuleError triggers close on the new capsule and is
re-raised. -/
def runPluginStage (capsuleName : String)
    (execCode : Bytes → Except String PyModule)
    (codeBytes : Bytes) (loadedFiles : List (String × Bytes))
    (inferenceMode : Bool) (metaPath : List Finder) : LoadOutcome :=
  let mp1 := pyInsert 1 (Finder.zipFinder capsuleName) metaPath
  let execResult : Except PyExc PyModule :=
    match execCode codeBytes with
    | .ok capsuleModule => .ok capsuleModule
    | .error e =>
      .error (.invalidCapsule capsuleName
        ("Could not execute the code in the capsule! Error: " ++ e))
  match pyPop 1 mp1 with
  | none => ⟨.error (.indexError "pop index out of range"), mp1, false⟩
  | some (_, mp2) =>
    match execResult with
    | .error e => ⟨.error e, mp2, false⟩
    | .ok capsuleModule =>
      match capsuleModule.CapsuleClass with
      | none => ⟨.error (.attributeError "Capsule"), mp2, false⟩
      | some ctor =>
        match ctor loadedFiles inferenceMode with
        | .error e => ⟨.error e, mp2, false⟩
        | .ok newCapsule =>
          match validateCapsule newCapsule with
          | .ok _ => ⟨.ok newCapsule, mp2, false⟩
          | .error (.invalidCapsule n r) =>
            ⟨.error (.invalidCapsule n r), mp2, true⟩
          | .error e => ⟨.error e, mp2, false⟩

/-- load_capsule_from_bytes, lines 25-139, for an unencrypted capsule
(key None; decryption is an external black box applied before this
pipeline).  capsuleName stands for capsule_module_name(data), the
sha256-derived module name; parseIni stands for the external
configparser (its parse failures are raised to the caller unwrapped);
execCode stands for compiling and executing capsule.py, yielding the
module namespace in which a Capsule class may or may not have been
bound.  The archive is the zip file as an association list from entry
name to byte content. -/
def load (capsuleName : String)
    (parseIni : Bytes → Except PyExc IniConf)
    (execCode : Bytes → Except String PyModule)
    (arch : List (String × Bytes)) (inferenceMode : Bool)
    (metaPath : List Finder) : LoadOutcome :=
  if !(namelist arch).contains CAPSULE_FILE_NAME then
    ⟨.error (.invalidCapsule capsuleName
      ("Missing file " ++ CAPSULE_FILE_NAME)), metaPath, false⟩
  else if !(namelist arch).contains META_FILE_NAME then
    ⟨.error (.invalidCapsule capsuleName
      ("Missing file " ++ META_FILE_NAME)), metaPath, false⟩
  else
    match extractFiles arch with
    | (none, _) =>
      -- compile(None, ...) on line 117: unreachable after the
      -- namelist check, modelled as the TypeError it would raise
      ⟨.error (.typeError "compile expected a code source, got NoneType"),
        metaPath, false⟩
    | (some codeBytes, loadedFiles) =>
    match dictGet loadedFiles META_FILE_NAME with
    | none => ⟨.error (.keyError META_FILE_NAME), metaPath, false⟩
    | some metaBytes =>
    match parseIni metaBytes with
    | .error e => ⟨.error e, metaPath, false⟩
    | .ok conf =>
    match iniSection conf "about" with
    | none => ⟨.error (.keyError "about"), metaPath, false⟩
    | some about =>
    match iniValue about "api_compatibility_version" with
    | none => ⟨.error (.keyError "api_compatibility_version"), metaPath, false⟩
    | some compat =>
    match semverMatch compat with
    | none =>
      ⟨.error (.invalidCapsule capsuleName
        ("Invalid API compatibility version format " ++ compat
          ++ ". Version must be in the format [major].[minor].")),
        metaPath, false⟩
    | some (major, minor) =>
    if major ≠ MAJOR_COMPATIBLE_VERSION then
      ⟨.error (.incompatibleCapsule capsuleName
        "The capsule is not compatible with this software: its required major version differs from the version this software uses."),
        metaPath, false⟩
    else if minor > MINOR_COMPATIBLE_VERSION then
      ⟨.error (.incompatibleCapsule capsuleName
        "The capsule requires a version of OpenVisionCapsules that is too new for this software."),
        metaPath, false⟩
    else
      runPluginStage capsuleName execCode codeBytes loadedFiles
        inferenceMode metaPath

/-- Definition following the words of the spec, for comparison with
the code: the auxiliary-file mapping as the spec describes it, namely
every entry other than the code entry and the meta entry. -/
def specNonDesignatedEntries (arch : List (String × Bytes)) :
    List (String × Bytes) :=
  arch.filter (fun p =>
    !(p.1 == CAPSULE_FILE_NAME) && !(p.1 == META_FILE_NAME))

/-- Definition following the words of the spec, for comparison with
the code: the backend loader argument check as the spec describes it,
namely the declared parameter names after ignoring a leading self
parameter must be exactly capsule_files then device. -/
def specLoaderArgNamesOk (pc : PyCode) : Bool :=
  let args := pc.co_varnames.take pc.co_argcount
  let withoutSelf := match args with
    | "self" :: rest => rest
    | other => other
  withoutSelf == ["capsule_files", "device"]

/-- A capsule satisfying every clause of _validate_capsule; the
concrete instances below vary one attribute at a time. -/
def baseCapsule : PyCapsule :=
  { attrs_missing := []
    name := "classifier"
    name_is_str := true
    backend_loader_callable := true
    backend_loader_code := some ⟨["capsule_files", "device"], 2⟩
    version_is_int := true
    input_type_is_node_description := true
    output_type_is_node_description := true
    options_is_dict := true
    options_keys := []
    has_backend_config := false
    backends := none
    stream_state := BaseStreamState
    capability_encoded := false }

/-- baseCapsule with the backend loader code object replaced. -/
def mkLoaderCapsule (pc : PyCode) : PyCapsule :=
  { baseCapsule with backend_loader_code := some pc }

/-- baseCapsule with the stream state replaced. -/
def mkStreamCapsule (ss : PyClassObj) : PyCapsule :=
  { baseCapsule with stream_state := ss }

/-- The code object of a backend loader written as an instance method:
a leading self parameter followed by capsule_files and device. -/
def loaderCodeWithSelf : PyCode :=
  ⟨["self", "capsule_files", "device"], 3⟩

/-- A class inheriting from BaseStreamState only through an
intermediate class: an indirect subtype. -/
def indirectStreamState : PyClassObj :=
  .mk "LeafState" [.mk "MidState" [BaseStreamState]]

/-- baseCapsule with an invalid name, used to exercise the validation
failure path of the orchestrator. -/
def badNameCapsule : PyCapsule :=
  { baseCapsule with name := "bad name" }

/-- baseCapsule declared encoder-capable while its options lack the
recognition_threshold key. -/
def encoderCapsule : PyCapsule :=
  { baseCapsule with capability_encoded := true }

/-- baseCapsule with a backends attribute that is an empty list. -/
def emptyBackendsCapsule : PyCapsule :=
  { baseCapsule with backends := some [] }

/-- A host sys.meta_path with its usual interpreter finders. -/
def hostMetaPath : List Finder :=
  [.hostFinder 0, .hostFinder 1, .hostFinder 2]

/-- A configparser model returning a parser with no sections, the
result of reading an empty meta descriptor. -/
def parseIniNoAbout : Bytes → Except PyExc IniConf :=
  fun _ => .ok []

/-- A configparser model returning an about section whose
api_compatibility_version is the given string. -/
def parseIniVersion (s : String) : Bytes → Except PyExc IniConf :=
  fun _ => .ok [("about", [("api_compatibility_version", s)])]

/-- A capsule code execution model that fails with a syntax error. -/
def execFail : Bytes → Except String PyModule :=
  fun _ => .error "invalid syntax"

/-- A capsule code execution model whose Capsule class ignores its
constructor arguments and produces the given capsule. -/
def execConst (c : PyCapsule) : Bytes → Except String PyModule :=
  fun _ => .ok ⟨some (fun _ _ => .ok c)⟩

/-- A capsule code execution model that runs fine but binds no Capsule
class in the module namespace. -/
def execNoCapsuleClass : Bytes → Except String PyModule :=
  fun _ => .ok ⟨none⟩

/-- A capsule code execution model whose Capsule constructor raises. -/
def execRaisingInit : Bytes → Except String PyModule :=
  fun _ => .ok ⟨some (fun _ _ => .error (.typeError "unsupported operand"))⟩

/-- baseCapsule with its name attribute missing: every access to name
raises AttributeError. -/
def noNameCapsule : PyCapsule :=
  { baseCapsule with attrs_missing := ["name"] }

/-- The raw, unwrapped escape routes of load for given collaborators
and archive: a configparser failure on the meta bytes, the KeyErrors
of the unguarded subscripts on line 76, the AttributeError of the
line-129 Capsule lookup when the executed code bound no such class,
whatever the Capsule constructor raised on line 129, and the
AttributeError re-raised by the validation error handlers of lines
279-285 when they re-read the missing name attribute.  Everything
outside these routes is wrapped. -/
def loadRawLeak (pI : Bytes → Except PyExc IniConf)
    (ex : Bytes → Except String PyModule)
    (arch : List (String × Bytes)) (mode : Bool) (e : PyExc) : Prop :=
  (∃ mb, dictGet (extractFiles arch).2 META_FILE_NAME = some mb ∧
    pI mb = .error e)
  ∨ e = .keyError "about"
  ∨ e = .keyError "api_compatibility_version"
  ∨ (∃ codeB capsuleModule, (extractFiles arch).1 = some codeB ∧
      ex codeB = .ok capsuleModule ∧ capsuleModule.CapsuleClass = none ∧
      e = .attributeError "Capsule")
  ∨ (∃ codeB capsuleModule ctor, (extractFiles arch).1 = some codeB ∧
      ex codeB = .ok capsuleModule ∧
      capsuleModule.CapsuleClass = some ctor ∧
      ctor (extractFiles arch).2 mode = .error e)
  ∨ e = .attributeError "name"

/-- A two-entry archive holding only the designated code and meta
entries. -/
def archMinimal : List (String × Bytes) :=
  [(CAPSULE_FILE_NAME, [104, 105]), (META_FILE_NAME, [97, 98])]

/-- A three-entry archive with one auxiliary file next to the
designated entries. -/
def archWithAux : List (String × Bytes) :=
  [(CAPSULE_FILE_NAME, [104]), (META_FILE_NAME, [97]), ("model.bin", [7, 9])]

/-- A stand-in for the sha256-derived module name of the archives
above. -/
def demoCapsuleName : String := "capsule_d3adb33f"

end VCap

namespace VCap

/-- Inserting at position 1 and popping position 1 restores any
nonempty list. -/
theorem pyPop_pyInsert {α : Type} (x : α) (l : List α)
    (h : 1 ≤ l.length) : pyPop 1 (pyInsert 1 x l) = some (x, l) := by
  cases l with
  | nil => simp at h
  | cons a t => simp [pyInsert, pyPop]

/-- The plugin stage leaves sys.meta_path as it found it whenever the
surrounding stack is nonempty. -/
theorem runPluginStage_metaPath (cn : String)
    (ex : Bytes → Except String PyModule) (cb : Bytes)
    (lf : List (String × Bytes)) (mode : Bool) (mp : List Finder)
    (h : 1 ≤ mp.length) :
    (runPluginStage cn ex cb lf mode mp).metaPathAfter = mp := by
  simp only [runPluginStage, pyPop_pyInsert _ _ h]
  cases hx : ex cb with
  | error e => simp
  | ok capsuleModule =>
    cases hm : capsuleModule.CapsuleClass with
    | none => simp [hm]
    | some ctor =>
      cases hc : ctor lf mode with
      | error e => simp [hm, hc]
      | ok cap =>
        cases hv : validateCapsule cap with
        | ok u => simp [hm, hc, hv]
        | error e => cases e <;> simp [hm, hc, hv]

/-- Every failure of _validate_capsule is reported as an
InvalidCapsuleError, except that the error handlers of lines 279-285
re-read capsule.name while building the replacement error: a capsule
whose name attribute is missing makes them raise that raw
AttributeError instead. -/
theorem validateCapsule_error_classify (c : PyCapsule) (e : PyExc)
    (h : validateCapsule c = .error e) :
    (∃ n r, e = .invalidCapsule n r) ∨ e = .attributeError "name" := by
  unfold validateCapsule at h
  cases hb : validateBody c with
  | ok u => rw [hb] at h; simp at h
  | error pe =>
    rw [hb] at h
    by_cases hn : "name" ∈ c.attrs_missing
    · cases pe <;> simp [getAttr, hn] at h <;>
        first
        | (left; exact ⟨_, _, h⟩)
        | (left; exact ⟨_, _, h.symm⟩)
        | (right; exact h.symm)
        | (right; exact h)
    · cases pe <;> simp [getAttr, hn] at h <;>
        first
        | (left; exact ⟨_, _, h⟩)
        | (left; exact ⟨_, _, h.symm⟩)
        | (right; exact h.symm)
        | (right; exact h)

/-- A dict lookup succeeds exactly when some entry carries the key. -/
theorem dictGet_isSome_iff (d : List (String × Bytes)) (k : String) :
    (dictGet d k).isSome = true ↔ ∃ q, q ∈ d ∧ (q.1 == k) = true := by
  unfold dictGet
  rw [Option.isSome_map']
  exact List.find?_isSome

/-- The key just inserted is present afterwards. -/
theorem dictGet_dictInsert_self (d : List (String × Bytes))
    (k : String) (v : Bytes) :
    (dictGet (dictInsert d k v) k).isSome = true := by
  rw [dictGet_isSome_iff]
  unfold dictInsert
  by_cases ha : d.any (fun p => p.1 == k) = true
  · simp only [ha, if_true]
    obtain ⟨q, hq, hqk⟩ := List.any_eq_true.mp ha
    exact ⟨(k, v), List.mem_map.mpr ⟨q, hq, by simp [hqk]⟩, by simp⟩
  · simp only [ha, if_false]
    exact ⟨(k, v), by simp, by simp⟩

/-- dictInsert preserves the presence of every key. -/
theorem dictGet_dictInsert_isSome (d : List (String × Bytes))
    (k k2 : String) (v : Bytes)
    (h : (dictGet d k).isSome = true) :
    (dictGet (dictInsert d k2 v) k).isSome = true := by
  by_cases hk : k = k2
  · subst hk; exact dictGet_dictInsert_self d k v
  · rw [dictGet_isSome_iff] at h ⊢
    obtain ⟨q, hq, hqk⟩ := h
    unfold dictInsert
    by_cases ha : d.any (fun p => p.1 == k2) = true
    · simp only [ha, if_true]
      refine ⟨q, List.mem_map.mpr ⟨q, hq, ?_⟩, hqk⟩
      have hq2 : (q.1 == k2) = false := by
        rw [beq_iff_eq] at hqk
        simp [beq_iff_eq, hqk, hk]
      simp [hq2]
    · simp only [ha, if_false]
      exact ⟨q, List.mem_append_left _ hq, hqk⟩

/-- After extraction, the code component is set whenever the archive
has a capsule.py entry. -/
theorem extractFiles_fst_isSome (arch : List (String × Bytes))
    (h : ∃ q, q ∈ arch ∧ (q.1 == CAPSULE_FILE_NAME) = true) :
    ((extractFiles arch).1).isSome = true := by
  unfold extractFiles
  suffices hgo : ∀ (l : List (String × Bytes))
      (acc : Option Bytes × List (String × Bytes)),
      ((∃ q, q ∈ l ∧ (q.1 == CAPSULE_FILE_NAME) = true) ∨
        acc.1.isSome = true) →
      ((l.foldl extractStep acc).1).isSome = true by
    exact hgo arch (none, []) (Or.inl h)
  intro l
  induction l with
  | nil =>
    intro acc h2
    rcases h2 with h2 | h2
    · obtain ⟨q, hq, _⟩ := h2; exact absurd hq (List.not_mem_nil q)
    · simpa using h2
  | cons p t ih =>
    intro acc h2
    rw [List.foldl_cons]
    apply ih
    by_cases hp : (p.1 == CAPSULE_FILE_NAME) = true
    · right; simp [extractStep, hp]
    · rcases h2 with h2 | h2
      · obtain ⟨q, hq, hqc⟩ := h2
        rcases List.mem_cons.mp hq with rfl | hqt
        · exact absurd hqc hp
        · exact Or.inl ⟨q, hqt, hqc⟩
      · right; simpa [extractStep, hp] using h2

/-- After extraction, every non-capsule.py entry name of the archive
is present in the loaded_files dict. -/
theorem extractFiles_dictGet_isSome (arch : List (String × Bytes))
    (k : String) (h : ∃ q, q ∈ arch ∧ (q.1 == k) = true)
    (hk : (k == CAPSULE_FILE_NAME) = false) :
    (dictGet (extractFiles arch).2 k).isSome = true := by
  unfold extractFiles
  suffices hgo : ∀ (l : List (String × Bytes))
      (acc : Option Bytes × List (String × Bytes)),
      ((∃ q, q ∈ l ∧ (q.1 == k) = true) ∨
        (dictGet acc.2 k).isSome = true) →
      (dictGet ((l.foldl extractStep acc).2) k).isSome = true by
    exact hgo arch (none, []) (Or.inl h)
  intro l
  induction l with
  | nil =>
    intro acc h2
    rcases h2 with h2 | h2
    · obtain ⟨q, hq, _⟩ := h2; exact absurd hq (List.not_mem_nil q)
    · simpa using h2
  | cons p t ih =>
    intro acc h2
    rw [List.foldl_cons]
    apply ih
    by_cases hp : (p.1 == CAPSULE_FILE_NAME) = true
    · rcases h2 with h2 | h2
      · obtain ⟨q, hq, hqc⟩ := h2
        rcases List.mem_cons.mp hq with rfl | hqt
        · rw [beq_iff_eq] at hp hqc
          rw [hqc] at hp
          rw [hp] at hk
          simp at hk
        · exact Or.inl ⟨q, hqt, hqc⟩
      · right; simpa [extractStep, hp] using h2
    · rcases h2 with h2 | h2
      · obtain ⟨q, hq, hqc⟩ := h2
        rcases List.mem_cons.mp hq with rfl | hqt
        · right
          rw [beq_iff_eq] at hqc
          subst hqc
          simpa [extractStep, hp] using dictGet_dictInsert_self acc.2 q.1 q.2
        · exact Or.inl ⟨q, hqt, hqc⟩
      · right
        simpa [extractStep, hp] using
          dictGet_dictInsert_isSome acc.2 k p.1 p.2 h2

/-- Inserting a key that is absent from the dict appends the pair. -/
theorem dictInsert_of_fresh (d : List (String × Bytes)) (k : String)
    (v : Bytes) (h : d.any (fun p => p.1 == k) = false) :
    dictInsert d k v = d ++ [(k, v)] := by
  unfold dictInsert
  simp [h]

/-- Under distinct entry names, extraction stores exactly the entries
other than capsule.py, in order and with their byte content
unchanged. -/
theorem extractFiles_snd_eq_filter (arch : List (String × Bytes))
    (h : (namelist arch).Nodup) :
    (extractFiles arch).2 =
      arch.filter (fun p => !(p.1 == CAPSULE_FILE_NAME)) := by
  unfold extractFiles
  suffices hgo : ∀ (l : List (String × Bytes))
      (acc : Option Bytes × List (String × Bytes)),
      (l.map Prod.fst).Nodup →
      (∀ q ∈ acc.2, ¬ q.1 ∈ l.map Prod.fst) →
      ((l.foldl extractStep acc).2) =
        acc.2 ++ l.filter (fun p => !(p.1 == CAPSULE_FILE_NAME)) by
    simpa using hgo arch (none, []) h (by simp)
  intro l
  induction l with
  | nil => intro acc _ _; simp
  | cons p t ih =>
    intro acc hnd hdisj
    rw [List.map_cons, List.nodup_cons] at hnd
    rw [List.foldl_cons]
    by_cases hp : (p.1 == CAPSULE_FILE_NAME) = true
    · rw [show extractStep acc p = (some p.2, acc.2) by
        simp [extractStep, hp]]
      rw [ih (some p.2, acc.2) hnd.2
        (fun q hq => fun hmem =>
          hdisj q hq (by rw [List.map_cons]; exact List.mem_cons_of_mem _ hmem))]
      simp [List.filter_cons, hp]
    · have hfresh : acc.2.any (fun q => q.1 == p.1) = false := by
        rw [List.any_eq_false]
        intro q hq
        have := hdisj q hq
        rw [List.map_cons] at this
        simp only [List.mem_cons, not_or] at this
        simp [beq_iff_eq, this.1]
      rw [show extractStep acc p = (acc.1, dictInsert acc.2 p.1 p.2) by
        simp [extractStep, hp]]
      rw [show dictInsert acc.2 p.1 p.2 = acc.2 ++ [p] by
        rw [dictInsert_of_fresh acc.2 p.1 p.2 hfresh]]
      rw [ih (acc.1, acc.2 ++ [p]) hnd.2 ?_]
      · rw [List.filter_cons]
        simp [hp, List.append_assoc]
      · intro q hq
        rcases List.mem_append.mp hq with hq2 | hq2
        · intro hmem
          exact hdisj q hq2
            (by rw [List.map_cons]; exact List.mem_cons_of_mem _ hmem)
        · rw [List.mem_singleton] at hq2
          subst hq2
          exact hnd.1

/-- On the otherwise-valid capsule family varying only the loader code
object, validation succeeds exactly when check_arg_names does. -/
theorem validationPasses_mkLoaderCapsule (pc : PyCode) :
    validationPasses (mkLoaderCapsule pc) =
      check_arg_names pc ["capsule_files", "device"] [] := by
  by_cases hc : check_arg_names pc ["capsule_files", "device"] [] = true
  · rw [hc]
    simp +decide [validationPasses, validateCapsule, validateBody, checkName,
      checkCapsuleAssertions, checkUnwantedAttributes, checkLoader,
      checkBackends, checkStreamState, checkEncoder, mkLoaderCapsule,
      baseCapsule, getAttr, validName, hc]
  · rw [Bool.not_eq_true] at hc
    rw [hc]
    simp +decide [validationPasses, validateCapsule, validateBody, checkName,
      checkCapsuleAssertions, checkUnwantedAttributes, checkLoader,
      checkBackends, checkStreamState, checkEncoder, mkLoaderCapsule,
      baseCapsule, getAttr, validName, hc]

/-- On the otherwise-valid capsule family varying only the stream
state, validation succeeds exactly when the direct-bases test does. -/
theorem validationPasses_mkStreamCapsule (ss : PyClassObj) :
    validationPasses (mkStreamCapsule ss) = streamStateOk ss := by
  by_cases hc : streamStateOk ss = true
  · rw [hc]
    simp +decide [validationPasses, validateCapsule, validateBody, checkName,
      checkCapsuleAssertions, checkUnwantedAttributes, checkLoader,
      checkBackends, checkStreamState, checkEncoder, mkStreamCapsule,
      baseCapsule, getAttr, validName, check_arg_names, hc]
  · rw [Bool.not_eq_true] at hc
    rw [hc]
    simp +decide [validationPasses, validateCapsule, validateBody, checkName,
      checkCapsuleAssertions, checkUnwantedAttributes, checkLoader,
      checkBackends, checkStreamState, checkEncoder, mkStreamCapsule,
      baseCapsule, getAttr, validName, check_arg_names, hc]

end VCap

namespace VCap

example : semverMatch "0.2" = some (0, 2) := by decide
example : semverMatch "10.23" = some (10, 23) := by decide
example : semverMatch "1.2.3" = none := by decide
example : semverMatch " 1.2" = none := by decide
example : semverMatch "1.2 " = none := by decide
example : semverMatch "+1.2" = none := by decide
example : semverMatch "1." = none := by decide
example : semverMatch ".2" = none := by decide
example : semverMatch "a.2" = none := by decide

end VCap

namespace VCap

/-- Claim C3, counterexample: a backend loader declared as a method
with a leading self parameter followed by capsule_files and device
satisfies the spec wording (parameter names after ignoring a leading
self are exactly capsule_files then device) yet fails validation,
because the validator calls check_arg_names with its ignore list left
empty. -/
theorem c3_counterexample :
    specLoaderArgNamesOk loaderCodeWithSelf = true ∧
    validationPasses (mkLoaderCapsule loaderCodeWithSelf) = false := by
  constructor
  · decide
  · rw [validationPasses_mkLoaderCapsule]
    decide

/-- Claim C3 as amended: structural validation accepts the
backend-loading callable if and only if its declared parameter names,
with no self parameter ignored, are exactly capsule_files then device
in that order; a loader declared with a leading self parameter
therefore fails validation. -/
theorem c3_amended_loader_args (pc : PyCode) :
    validationPasses (mkLoaderCapsule pc) = true ↔
      pc.co_varnames.take pc.co_argcount = ["capsule_files", "device"] := by
  rw [validationPasses_mkLoaderCapsule]
  unfold check_arg_names
  simp

/-- Witness for the amended claim C3 at a concrete loader code
object. -/
theorem c3_amended_witness :
    validationPasses (mkLoaderCapsule ⟨["capsule_files", "device"], 2⟩) = true :=
  (c3_amended_loader_args ⟨["capsule_files", "device"], 2⟩).mpr (by decide)

/-- Claim C4, counterexample: a class inheriting from BaseStreamState
through an intermediate class is an indirect subtype, yet the capsule
declaring it fails validation, because the validator only inspects the
direct bases tuple. -/
theorem c4_counterexample :
    isStreamStateSubtype indirectStreamState = true ∧
    validationPasses (mkStreamCapsule indirectStreamState) = false := by
  constructor
  · decide
  · rw [validationPasses_mkStreamCapsule]
    decide

/-- Claim C4 as amended: structural validation accepts the declared
stream-state if and only if it is the base stream-state type itself or
the base type occurs among its direct bases; a class related to the
base type only through an intermediate class fails validation. -/
theorem c4_amended_stream_state (ss : PyClassObj) :
    validationPasses (mkStreamCapsule ss) = true ↔
      (classEq ss BaseStreamState = true ∨
        (ss.basesOf.any (fun b => classEq b BaseStreamState)) = true) := by
  rw [validationPasses_mkStreamCapsule]
  unfold streamStateOk
  simp [Bool.or_eq_true]

/-- Witness for the amended claim C4 at a direct subtype of
BaseStreamState. -/
theorem c4_amended_witness :
    validationPasses (mkStreamCapsule (.mk "MyState" [BaseStreamState])) = true :=
  (c4_amended_stream_state (.mk "MyState" [BaseStreamState])).mpr (by right; decide)

end VCap

namespace VCap

/-- Claim C9: a plugin whose capability flags indicate it can produce
encodings fails validation with InvalidCapsuleError when its options
lack the recognition_threshold key, and the same plugin with that key
added to its options (all other attributes unchanged) passes
validation, provided every other validation clause is satisfied. -/
theorem c9_encoder_threshold (c : PyCapsule)
    (h1 : checkName c = .ok ()) (h2 : checkCapsuleAssertions c = .ok ())
    (h3 : checkUnwantedAttributes c = .ok ()) (h4 : checkLoader c = .ok ())
    (h5 : checkBackends c = .ok ()) (h6 : checkStreamState c = .ok ())
    (hcap : c.attrs_missing.contains "capability" = false)
    (hopt : c.attrs_missing.contains "options" = false)
    (hnm : c.attrs_missing.contains "name" = false)
    (henc : c.capability_encoded = true) :
    (c.options_keys.contains "recognition_threshold" = false →
      validateCapsule c = .error (.invalidCapsule c.name
        "This capsule can encode, but does not have a option called recognition_threshold!"))
    ∧ validateCapsule
        { c with options_keys := "recognition_threshold" :: c.options_keys } =
        .ok () := by
  have hcap2 : ¬ ("capability" ∈ c.attrs_missing) := by simpa using hcap
  have hopt2 : ¬ ("options" ∈ c.attrs_missing) := by simpa using hopt
  have hnm2 : ¬ ("name" ∈ c.attrs_missing) := by simpa using hnm
  constructor
  · intro hmiss
    have hmiss2 : ¬ ("recognition_threshold" ∈ c.options_keys) := by
      simpa using hmiss
    unfold validateCapsule validateBody
    rw [h1, h2, h3, h4, h5, h6]
    unfold checkEncoder
    simp [getAttr, hcap2, hopt2, hnm2, henc, hmiss2]
  · have h1b : checkName
        { c with options_keys := "recognition_threshold" :: c.options_keys } =
        .ok () := h1
    have h2b : checkCapsuleAssertions
        { c with options_keys := "recognition_threshold" :: c.options_keys } =
        .ok () := h2
    have h3b : checkUnwantedAttributes
        { c with options_keys := "recognition_threshold" :: c.options_keys } =
        .ok () := h3
    have h4b : checkLoader
        { c with options_keys := "recognition_threshold" :: c.options_keys } =
        .ok () := h4
    have h5b : checkBackends
        { c with options_keys := "recognition_threshold" :: c.options_keys } =
        .ok () := h5
    have h6b : checkStreamState
        { c with options_keys := "recognition_threshold" :: c.options_keys } =
        .ok () := h6
    unfold validateCapsule validateBody
    rw [h1b, h2b, h3b, h4b, h5b, h6b]
    unfold checkEncoder
    simp [getAttr, hcap2, hopt2, henc]

/-- Witness for claim C9: the concrete encoder capsule without the
threshold option fails, and gains validity when the key is added. -/
theorem c9_witness :
    (validateCapsule encoderCapsule = .error (.invalidCapsule "classifier"
      "This capsule can encode, but does not have a option called recognition_threshold!"))
    ∧ validateCapsule
        { encoderCapsule with
            options_keys := "recognition_threshold" :: encoderCapsule.options_keys } =
        .ok () :=
  ⟨(c9_encoder_threshold encoderCapsule rfl rfl rfl rfl rfl rfl
      (by decide) (by decide) (by decide) (by decide)).1 (by decide),
   (c9_encoder_threshold encoderCapsule rfl rfl rfl rfl rfl rfl
      (by decide) (by decide) (by decide) (by decide)).2⟩

/-- Claim C10: a capsule whose backends attribute is a non-None empty
list fails validation with the generic invalid-for-unknown-reasons
InvalidCapsuleError; the IndexError raised by indexing the empty list
is caught by the catch-all handler and never escapes. -/
theorem c10_empty_backends (c : PyCapsule)
    (h1 : checkName c = .ok ()) (h2 : checkCapsuleAssertions c = .ok ())
    (h3 : checkUnwantedAttributes c = .ok ()) (h4 : checkLoader c = .ok ())
    (hb : c.backends = some [])
    (hbat : c.attrs_missing.contains "backends" = false)
    (hnm : c.attrs_missing.contains "name" = false) :
    validateCapsule c = .error (.invalidCapsule c.name
      ("This capsule is invalid for unknown reasons. Error: "
        ++ PyExc.render (.indexError "list index out of range"))) := by
  have hbat2 : ¬ ("backends" ∈ c.attrs_missing) := by simpa using hbat
  have hnm2 : ¬ ("name" ∈ c.attrs_missing) := by simpa using hnm
  unfold validateCapsule validateBody
  rw [h1, h2, h3, h4]
  unfold checkBackends
  simp [getAttr, hbat2, hnm2, hb]

/-- Witness for claim C10 at the concrete empty-backends capsule. -/
theorem c10_witness :
    validateCapsule emptyBackendsCapsule = .error (.invalidCapsule "classifier"
      ("This capsule is invalid for unknown reasons. Error: "
        ++ PyExc.render (.indexError "list index out of range"))) :=
  c10_empty_backends emptyBackendsCapsule rfl rfl rfl rfl rfl
    (by decide) (by decide)

/-- Claim C6: when the plugin instance has been successfully
constructed and validation fails with InvalidCapsuleError, the
orchestrator closes the instance (capsuleClosed) and re-raises that
same error. -/
theorem c6_close_on_validation_failure (cn : String)
    (ex : Bytes → Except String PyModule) (cb : Bytes)
    (lf : List (String × Bytes)) (mode : Bool) (mp : List Finder)
    (hmp : 1 ≤ mp.length) (capsuleModule : PyModule)
    (hex : ex cb = .ok capsuleModule) (ctor : CapsuleCtor)
    (hcls : capsuleModule.CapsuleClass = some ctor) (cap : PyCapsule)
    (hctor : ctor lf mode = .ok cap) (n r : String)
    (hv : validateCapsule cap = .error (.invalidCapsule n r)) :
    runPluginStage cn ex cb lf mode mp =
      ⟨.error (.invalidCapsule n r), mp, true⟩ := by
  simp only [runPluginStage, pyPop_pyInsert _ _ hmp, hex, hcls, hctor, hv]

/-- Witness for claim C6: a capsule with an invalid name is
constructed, validation fails, and the orchestrator closes it and
re-raises the validation error. -/
theorem c6_witness :
    runPluginStage demoCapsuleName (execConst badNameCapsule) [104]
      [] true hostMetaPath =
      ⟨.error (.invalidCapsule "bad name"
        "Capsule names must only contain alphanumeric characters and underscores"),
       hostMetaPath, true⟩ :=
  c6_close_on_validation_failure demoCapsuleName (execConst badNameCapsule)
    [104] [] true hostMetaPath (by decide)
    ⟨some (fun _ _ => .ok badNameCapsule)⟩ rfl
    (fun _ _ => .ok badNameCapsule) rfl badNameCapsule rfl
    "bad name" "Capsule names must only contain alphanumeric characters and underscores"
    rfl

end VCap

namespace VCap

/-- Claim C1: for a capsule whose compatibility string parses as
(major, minor), load raises IncompatibleCapsuleError when major
differs from the host major; when major matches and minor is at most
the host minor the gate accepts and loading proceeds to the plugin
stage; when major matches and minor exceeds the host minor load raises
IncompatibleCapsuleError. -/
theorem c1_version_gate (cn : String)
    (pI : Bytes → Except PyExc IniConf)
    (ex : Bytes → Except String PyModule)
    (arch : List (String × Bytes)) (mode : Bool) (mp : List Finder)
    (h1 : (namelist arch).contains CAPSULE_FILE_NAME = true)
    (h2 : (namelist arch).contains META_FILE_NAME = true)
    (codeB : Bytes) (lf : List (String × Bytes))
    (hext : extractFiles arch = (some codeB, lf))
    (metaB : Bytes) (hmeta : dictGet lf META_FILE_NAME = some metaB)
    (conf : IniConf) (hconf : pI metaB = .ok conf)
    (about : List (String × String))
    (habout : iniSection conf "about" = some about)
    (s : String) (hs : iniValue about "api_compatibility_version" = some s)
    (maj mnr : Nat) (hsem : semverMatch s = some (maj, mnr)) :
    (maj ≠ MAJOR_COMPATIBLE_VERSION →
      (load cn pI ex arch mode mp).result = .error (.incompatibleCapsule cn
        "The capsule is not compatible with this software: its required major version differs from the version this software uses."))
    ∧ (maj = MAJOR_COMPATIBLE_VERSION → mnr ≤ MINOR_COMPATIBLE_VERSION →
      load cn pI ex arch mode mp = runPluginStage cn ex codeB lf mode mp)
    ∧ (maj = MAJOR_COMPATIBLE_VERSION → MINOR_COMPATIBLE_VERSION < mnr →
      (load cn pI ex arch mode mp).result = .error (.incompatibleCapsule cn
        "The capsule requires a version of OpenVisionCapsules that is too new for this software.")) := by
  refine ⟨?_, ?_, ?_⟩
  · intro hmaj
    simp only [load, h1, h2, hext, hmeta, hconf, habout, hs, hsem]
    simp [hmaj]
  · intro hmaj hmin
    simp only [load, h1, h2, hext, hmeta, hconf, habout, hs, hsem]
    simp [hmaj, Nat.not_lt.mpr hmin]
  · intro hmaj hmin
    simp only [load, h1, h2, hext, hmeta, hconf, habout, hs, hsem]
    simp [hmaj, hmin]

/-- Witness for claim C1 on concrete archives: major mismatch 1.0 is
incompatible, matching 0.2 proceeds to the plugin stage, matching
major with newer minor 0.3 is incompatible. -/
theorem c1_witness :
    ((load demoCapsuleName (parseIniVersion "1.0") execFail archMinimal
        true hostMetaPath).result = .error (.incompatibleCapsule demoCapsuleName
        "The capsule is not compatible with this software: its required major version differs from the version this software uses."))
    ∧ (load demoCapsuleName (parseIniVersion "0.2") (execConst baseCapsule)
        archMinimal true hostMetaPath =
        runPluginStage demoCapsuleName (execConst baseCapsule) [104, 105]
          [(META_FILE_NAME, [97, 98])] true hostMetaPath)
    ∧ ((load demoCapsuleName (parseIniVersion "0.3") execFail archMinimal
        true hostMetaPath).result = .error (.incompatibleCapsule demoCapsuleName
        "The capsule requires a version of OpenVisionCapsules that is too new for this software.")) :=
  ⟨(c1_version_gate demoCapsuleName (parseIniVersion "1.0") execFail
      archMinimal true hostMetaPath rfl rfl [104, 105]
      [(META_FILE_NAME, [97, 98])] rfl [97, 98] rfl
      [("about", [("api_compatibility_version", "1.0")])] rfl
      [("api_compatibility_version", "1.0")] rfl "1.0" rfl 1 0
      (by decide)).1 (by decide),
   (c1_version_gate demoCapsuleName (parseIniVersion "0.2")
      (execConst baseCapsule) archMinimal true hostMetaPath rfl rfl
      [104, 105] [(META_FILE_NAME, [97, 98])] rfl [97, 98] rfl
      [("about", [("api_compatibility_version", "0.2")])] rfl
      [("api_compatibility_version", "0.2")] rfl "0.2" rfl 0 2
      (by decide)).2.1 rfl (by decide),
   (c1_version_gate demoCapsuleName (parseIniVersion "0.3") execFail
      archMinimal true hostMetaPath rfl rfl [104, 105]
      [(META_FILE_NAME, [97, 98])] rfl [97, 98] rfl
      [("about", [("api_compatibility_version", "0.3")])] rfl
      [("api_compatibility_version", "0.3")] rfl "0.3" rfl 0 3
      (by decide)).2.2 rfl (by decide)⟩

/-- Claim C7: a compatibility string that does not fully match the
two-group numeric pattern makes load raise InvalidCapsuleError with
the format message, and load never raises IncompatibleCapsuleError for
it. -/
theorem c7_invalid_version_format (cn : String)
    (pI : Bytes → Except PyExc IniConf)
    (ex : Bytes → Except String PyModule)
    (arch : List (String × Bytes)) (mode : Bool) (mp : List Finder)
    (h1 : (namelist arch).contains CAPSULE_FILE_NAME = true)
    (h2 : (namelist arch).contains META_FILE_NAME = true)
    (codeB : Bytes) (lf : List (String × Bytes))
    (hext : extractFiles arch = (some codeB, lf))
    (metaB : Bytes) (hmeta : dictGet lf META_FILE_NAME = some metaB)
    (conf : IniConf) (hconf : pI metaB = .ok conf)
    (about : List (String × String))
    (habout : iniSection conf "about" = some about)
    (s : String) (hs : iniValue about "api_compatibility_version" = some s)
    (hsem : semverMatch s = none) :
    ((load cn pI ex arch mode mp).result = .error (.invalidCapsule cn
      ("Invalid API compatibility version format " ++ s
        ++ ". Version must be in the format [major].[minor].")))
    ∧ ∀ n r, (load cn pI ex arch mode mp).result ≠
        .error (.incompatibleCapsule n r) := by
  constructor
  · simp only [load, h1, h2, hext, hmeta, hconf, habout, hs, hsem]
    simp
  · intro n r
    simp only [load, h1, h2, hext, hmeta, hconf, habout, hs, hsem]
    simp

/-- Witness for claim C7 at the malformed version string 1.2.3. -/
theorem c7_witness :
    (load demoCapsuleName (parseIniVersion "1.2.3") execFail archMinimal
      true hostMetaPath).result = .error (.invalidCapsule demoCapsuleName
      ("Invalid API compatibility version format " ++ "1.2.3"
        ++ ". Version must be in the format [major].[minor].")) :=
  (c7_invalid_version_format demoCapsuleName (parseIniVersion "1.2.3")
    execFail archMinimal true hostMetaPath rfl rfl [104, 105]
    [(META_FILE_NAME, [97, 98])] rfl [97, 98] rfl
    [("about", [("api_compatibility_version", "1.2.3")])] rfl
    [("api_compatibility_version", "1.2.3")] rfl "1.2.3" rfl (by decide)).1

/-- Claim C8: for a host import stack with at least one entry, load
leaves sys.meta_path exactly as it found it on every path, and a
failure of the capsule code evaluation is wrapped as
InvalidCapsuleError (while still restoring the stack). -/
theorem c8_meta_path_scoped (cn : String)
    (pI : Bytes → Except PyExc IniConf)
    (ex : Bytes → Except String PyModule)
    (arch : List (String × Bytes)) (mode : Bool) (mp : List Finder)
    (hmp : 1 ≤ mp.length) :
    ((load cn pI ex arch mode mp).metaPathAfter = mp)
    ∧ (∀ cb lf err, ex cb = .error err →
        (runPluginStage cn ex cb lf mode mp).result =
          .error (.invalidCapsule cn
            ("Could not execute the code in the capsule! Error: " ++ err))
        ∧ (runPluginStage cn ex cb lf mode mp).metaPathAfter = mp) := by
  constructor
  · unfold load
    repeat' split
    all_goals
      first
      | rfl
      | exact runPluginStage_metaPath _ _ _ _ _ _ hmp
  · intro cb lf err hexe
    constructor
    · simp only [runPluginStage, pyPop_pyInsert _ _ hmp, hexe]
    · exact runPluginStage_metaPath _ _ _ _ _ _ hmp

/-- Witness for claim C8: the concrete host stack is restored both on
a successful load and when the capsule code fails to execute. -/
theorem c8_witness :
    ((load demoCapsuleName (parseIniVersion "0.2") (execConst baseCapsule)
        archMinimal true hostMetaPath).metaPathAfter = hostMetaPath)
    ∧ (runPluginStage demoCapsuleName execFail [104, 105]
        [(META_FILE_NAME, [97, 98])] true hostMetaPath).result =
        .error (.invalidCapsule demoCapsuleName
          ("Could not execute the code in the capsule! Error: "
            ++ "invalid syntax")) :=
  ⟨(c8_meta_path_scoped demoCapsuleName (parseIniVersion "0.2")
      (execConst baseCapsule) archMinimal true hostMetaPath (by decide)).1,
   ((c8_meta_path_scoped demoCapsuleName (parseIniVersion "0.2") execFail
      archMinimal true hostMetaPath (by decide)).2 [104, 105]
      [(META_FILE_NAME, [97, 98])] "invalid syntax" rfl).1⟩

end VCap

namespace VCap

/-- Claim C2, counterexample: a well-formed archive whose meta
descriptor parses but contains no about section makes load leak the
raw KeyError of the subscript on line 76, which is neither
InvalidCapsuleError nor IncompatibleCapsuleError. -/
theorem c2_counterexample :
    (load demoCapsuleName parseIniNoAbout execFail archMinimal true
      hostMetaPath).result = .error (.keyError "about")
    ∧ isWrappedCapsuleError (.keyError "about") = false := by
  constructor
  · rfl
  · rfl

/-- Claim C2 as amended: load wraps capsule-code evaluation failures
and structural-validation failures as InvalidCapsuleError and raises
IncompatibleCapsuleError from the version gate, but it leaks raw
internal errors in three unguarded places: the meta-descriptor reading
on lines 74-76 (configparser errors and the KeyErrors for a missing
about section or api_compatibility_version key), the plugin
instantiation on line 129 (AttributeError when the executed code bound
no Capsule class, and whatever the constructor raises), and the
validation error handlers on lines 279-285, which re-read capsule.name
and so re-raise a raw AttributeError when the capsule lacks a name
attribute.  First conjunct: every error load raises is wrapped or
comes from one of those routes.  Remaining conjuncts: each of the
three routes is really reachable, shown on concrete inputs. -/
theorem c2_amended_error_wrapping (cn : String)
    (pI : Bytes → Except PyExc IniConf)
    (ex : Bytes → Except String PyModule)
    (arch : List (String × Bytes)) (mode : Bool) (mp : List Finder)
    (hmp : 1 ≤ mp.length) :
    (∀ e, (load cn pI ex arch mode mp).result = .error e →
      isWrappedCapsuleError e = true ∨ loadRawLeak pI ex arch mode e)
    ∧ (load demoCapsuleName parseIniNoAbout execFail archMinimal true
        hostMetaPath).result = .error (.keyError "about")
    ∧ (load demoCapsuleName (parseIniVersion "0.2") execNoCapsuleClass
        archMinimal true hostMetaPath).result =
        .error (.attributeError "Capsule")
    ∧ (load demoCapsuleName (parseIniVersion "0.2") execRaisingInit
        archMinimal true hostMetaPath).result =
        .error (.typeError "unsupported operand")
    ∧ (load demoCapsuleName (parseIniVersion "0.2")
        (execConst noNameCapsule) archMinimal true hostMetaPath).result =
        .error (.attributeError "name") := by
  refine ⟨?_, rfl, rfl, rfl, rfl⟩
  intro e h
  cases hc1 : (namelist arch).contains CAPSULE_FILE_NAME with
  | false =>
    have hc1m : ¬ CAPSULE_FILE_NAME ∈ namelist arch := by simpa using hc1
    simp [load, hc1m] at h
    subst h
    left
    rfl
  | true =>
  have hc1m : CAPSULE_FILE_NAME ∈ namelist arch := by
    simpa using hc1
  cases hc2 : (namelist arch).contains META_FILE_NAME with
  | false =>
    have hc2m : ¬ META_FILE_NAME ∈ namelist arch := by simpa using hc2
    simp [load, hc1m, hc2m] at h
    subst h
    left
    rfl
  | true =>
  have hc2m : META_FILE_NAME ∈ namelist arch := by
    simpa using hc2
  have hcs : ((extractFiles arch).1).isSome = true := by
    apply extractFiles_fst_isSome
    obtain ⟨q, hq, hq2⟩ := List.mem_map.mp hc1m
    exact ⟨q, hq, by simp [hq2]⟩
  have hms : (dictGet (extractFiles arch).2 META_FILE_NAME).isSome = true := by
    apply extractFiles_dictGet_isSome arch META_FILE_NAME ?_ (by decide)
    obtain ⟨q, hq, hq2⟩ := List.mem_map.mp hc2m
    exact ⟨q, hq, by simp [hq2]⟩
  rcases hef : extractFiles arch with ⟨oc, lf⟩
  rw [hef] at hcs hms
  simp only [Option.isSome_iff_exists] at hcs
  obtain ⟨codeB, hcodeB⟩ := hcs
  subst hcodeB
  obtain ⟨metaB, hmetaB⟩ := Option.isSome_iff_exists.mp hms
  simp only [load, hef] at h
  simp only [loadRawLeak, hef]
  cases hpi : pI metaB with
  | error e2 =>
    simp [hc1m, hc2m, hmetaB, hpi] at h
    subst h
    right
    left
    exact ⟨metaB, hmetaB, hpi⟩
  | ok conf =>
  cases hab : iniSection conf "about" with
  | none =>
    simp [hc1m, hc2m, hmetaB, hpi, hab] at h
    subst h
    right
    right
    left
    rfl
  | some about =>
  cases hvv : iniValue about "api_compatibility_version" with
  | none =>
    simp [hc1m, hc2m, hmetaB, hpi, hab, hvv] at h
    subst h
    right
    right
    right
    left
    rfl
  | some s =>
  simp [hc1m, hc2m, hmetaB, hpi, hab, hvv] at h
  cases hsem : semverMatch s with
  | none =>
    rw [hsem] at h
    simp at h
    subst h
    left
    rfl
  | some pr =>
    obtain ⟨mj, mn⟩ := pr
    rw [hsem] at h
    by_cases hmj : mj = MAJOR_COMPATIBLE_VERSION
    · by_cases hmn : MINOR_COMPATIBLE_VERSION < mn
      · simp [hmj, hmn] at h
        subst h
        left
        rfl
      · simp only [hmj, if_true, hmn, if_false, ite_true, ite_false,
          if_pos, reduceIte] at h
        simp only [runPluginStage, pyPop_pyInsert _ _ hmp] at h
        cases hexe : ex codeB with
        | error err =>
          rw [hexe] at h
          simp at h
          subst h
          left
          rfl
        | ok capsuleModule =>
          rw [hexe] at h
          cases hcls : capsuleModule.CapsuleClass with
          | none =>
            simp [hcls] at h
            subst h
            right
            right
            right
            right
            left
            exact ⟨codeB, capsuleModule, rfl, hexe, hcls, rfl⟩
          | some ctor =>
          cases hctor : ctor lf mode with
          | error e2 =>
            simp [hcls, hctor] at h
            subst h
            right
            right
            right
            right
            right
            left
            exact ⟨codeB, capsuleModule, ctor, rfl, hexe, hcls, hctor⟩
          | ok cap =>
          cases hv : validateCapsule cap with
          | ok u =>
            simp [hcls, hctor, hv] at h
          | error pe =>
            rcases validateCapsule_error_classify cap pe hv with ⟨n, r, rfl⟩ | rfl
            · simp [hcls, hctor, hv] at h
              subst h
              left
              rfl
            · simp [hcls, hctor, hv] at h
              subst h
              right
              right
              right
              right
              right
              right
              rfl
    · simp [hmj] at h
      subst h
      left
      rfl

/-- Witness for the amended claim C2: on a complete meta descriptor
with a well-behaved capsule, the validation failure surfaces wrapped
or as one of the enumerated raw routes. -/
theorem c2_amended_witness :
    isWrappedCapsuleError (.invalidCapsule "bad name"
      "Capsule names must only contain alphanumeric characters and underscores") = true
    ∨ loadRawLeak (parseIniVersion "0.2") (execConst badNameCapsule)
        archMinimal true (.invalidCapsule "bad name"
          "Capsule names must only contain alphanumeric characters and underscores") :=
  (c2_amended_error_wrapping demoCapsuleName (parseIniVersion "0.2")
    (execConst badNameCapsule) archMinimal true hostMetaPath (by decide)).1
    (.invalidCapsule "bad name"
      "Capsule names must only contain alphanumeric characters and underscores")
    rfl

end VCap

namespace VCap

/-- Claim C5, counterexample: the loaded_files mapping built by the
extraction loop is not the set of non-designated entries; on a
concrete archive it also contains the meta entry, since the loop
excludes only the code entry. -/
theorem c5_counterexample :
    (extractFiles archWithAux).2 ≠ specNonDesignatedEntries archWithAux
    ∧ dictGet (extractFiles archWithAux).2 META_FILE_NAME = some [97] := by
  constructor
  · decide
  · rfl

/-- Claim C5 as amended: for an archive with distinct entry names,
whenever load returns a capsule, that capsule was constructed by the
Capsule class applied to exactly the entries other than the code entry
(the meta entry included), in archive order and with their byte
content unchanged. -/
theorem c5_amended_loaded_files (cn : String)
    (pI : Bytes → Except PyExc IniConf)
    (ex : Bytes → Except String PyModule)
    (arch : List (String × Bytes)) (mode : Bool) (mp : List Finder)
    (hnodup : (namelist arch).Nodup) (cap : PyCapsule)
    (h : (load cn pI ex arch mode mp).result = .ok cap) :
    ∃ codeB capsuleModule ctor, (extractFiles arch).1 = some codeB ∧
      ex codeB = .ok capsuleModule ∧
      capsuleModule.CapsuleClass = some ctor ∧
      ctor (arch.filter (fun p => !(p.1 == CAPSULE_FILE_NAME))) mode =
        .ok cap := by
  cases hc1 : (namelist arch).contains CAPSULE_FILE_NAME with
  | false =>
    have hc1m : ¬ CAPSULE_FILE_NAME ∈ namelist arch := by simpa using hc1
    simp [load, hc1m] at h
  | true =>
  have hc1m : CAPSULE_FILE_NAME ∈ namelist arch := by simpa using hc1
  cases hc2 : (namelist arch).contains META_FILE_NAME with
  | false =>
    have hc2m : ¬ META_FILE_NAME ∈ namelist arch := by simpa using hc2
    simp [load, hc1m, hc2m] at h
  | true =>
  have hc2m : META_FILE_NAME ∈ namelist arch := by simpa using hc2
  rcases hef : extractFiles arch with ⟨oc, lf⟩
  have hlf : lf = arch.filter (fun p => !(p.1 == CAPSULE_FILE_NAME)) := by
    have := extractFiles_snd_eq_filter arch hnodup
    rw [hef] at this
    exact this
  cases oc with
  | none => simp [load, hc1m, hc2m, hef] at h
  | some codeB =>
  cases hmg : dictGet lf META_FILE_NAME with
  | none => simp [load, hc1m, hc2m, hef, hmg] at h
  | some metaB =>
  cases hpi : pI metaB with
  | error e2 => simp [load, hc1m, hc2m, hef, hmg, hpi] at h
  | ok conf =>
  cases hab : iniSection conf "about" with
  | none => simp [load, hc1m, hc2m, hef, hmg, hpi, hab] at h
  | some about =>
  cases hvv : iniValue about "api_compatibility_version" with
  | none => simp [load, hc1m, hc2m, hef, hmg, hpi, hab, hvv] at h
  | some s =>
  cases hsem : semverMatch s with
  | none => simp [load, hc1m, hc2m, hef, hmg, hpi, hab, hvv, hsem] at h
  | some pr =>
  obtain ⟨mj, mn⟩ := pr
  by_cases hmj : mj = MAJOR_COMPATIBLE_VERSION
  · by_cases hmn : MINOR_COMPATIBLE_VERSION < mn
    · simp [load, hc1m, hc2m, hef, hmg, hpi, hab, hvv, hsem, hmj, hmn] at h
    · simp only [load, hef] at h
      simp [hc1m, hc2m, hmg, hpi, hab, hvv, hsem, hmj, hmn] at h
      cases hpp : pyPop 1 (pyInsert 1 (Finder.zipFinder cn) mp) with
      | none => simp [runPluginStage, hpp] at h
      | some pr2 =>
      cases hexe : ex codeB with
      | error err => simp [runPluginStage, hpp, hexe] at h
      | ok capsuleModule =>
      cases hcls : capsuleModule.CapsuleClass with
      | none => simp [runPluginStage, hpp, hexe, hcls] at h
      | some ctor =>
      cases hctor : ctor lf mode with
      | error e2 => simp [runPluginStage, hpp, hexe, hcls, hctor] at h
      | ok cap2 =>
      cases hv : validateCapsule cap2 with
      | error pe =>
        cases pe <;> simp [runPluginStage, hpp, hexe, hcls, hctor, hv] at h
      | ok u =>
        refine ⟨codeB, capsuleModule, ctor, rfl, hexe, hcls, ?_⟩
        simp [runPluginStage, hpp, hexe, hcls, hctor, hv] at h
        rw [← hlf, hctor, h]
  · simp [load, hc1m, hc2m, hef, hmg, hpi, hab, hvv, hsem, hmj] at h

/-- Witness for the amended claim C5: on the concrete archive with an
auxiliary entry, the returned capsule was built from the meta and
auxiliary entries. -/
theorem c5_amended_witness :
    ∃ codeB capsuleModule ctor, (extractFiles archWithAux).1 = some codeB ∧
      execConst baseCapsule codeB = .ok capsuleModule ∧
      capsuleModule.CapsuleClass = some ctor ∧
      ctor (archWithAux.filter (fun p => !(p.1 == CAPSULE_FILE_NAME))) true =
        .ok baseCapsule :=
  c5_amended_loaded_files demoCapsuleName (parseIniVersion "0.2")
    (execConst baseCapsule) archWithAux true hostMetaPath (by decide)
    baseCapsule rfl

end VCap
